import Mathlib

/-!
Verification of the ThreatFox daily-report orchestration scripts
(`agents/threatfox_daily_report.py`, `agents/threatfox_ioc.py`).

The Python code is shallowly embedded: pure helpers become Lean functions on
`String` / `List Char`; each network call is represented by the outcome the
surrounding code observes (`NetOutcome`), and the orchestrator becomes a pure
function of those outcomes.  Python falsiness on optional strings is modelled
by `pyOr`; `str.strip` by `pyStrip`; `str.splitlines` by `splitLines`
(covering the `\n`, `\r` and `\r\n` boundaries that can occur in the data
handled here).
-/

namespace ThreatFox

/-- Characters stripped by Python `str.strip()` (ASCII whitespace). -/
def isPySpace (c : Char) : Bool :=
  c = ' ' || c = '\t' || c = '\n' || c = '\r' || c = '\x0b' || c = '\x0c'

/-- Python `str.strip()` on a character list: drop leading and trailing whitespace. -/
def stripChars (l : List Char) : List Char :=
  ((l.dropWhile isPySpace).reverse.dropWhile isPySpace).reverse

/-- Python `str.strip()`. -/
def pyStrip (s : String) : String :=
  String.mk (stripChars s.data)

/-- Python `str.splitlines()`: split at line boundaries (`\n`, `\r`, `\r\n`),
boundaries removed, no empty trailing line after a final terminator. -/
def splitLines : List Char → List (List Char)
  | [] => []
  | '\n' :: cs => [] :: splitLines cs
  | '\r' :: '\n' :: cs => [] :: splitLines cs
  | '\r' :: cs => [] :: splitLines cs
  | c :: cs =>
    match splitLines cs with
    | [] => [[c]]
    | line :: rest => (c :: line) :: rest

/-- Characters of the regex class in `r"^\d+[.)\-\s]+\s*(.+)$"`
(`threatfox_daily_report.py` line 293). -/
def isEnumMarkChar (c : Char) : Bool :=
  c = '.' || c = ')' || c = '-' || isPySpace c

/-- `re.match(r"^\d+[.)\-\s]+\s*(.+)$", line)` on an already-stripped line,
returning the captured group.  A match requires at least one leading digit,
then at least one marker-class character; the greedy marker run backtracks by
one character when it would otherwise leave nothing for the `(.+)` group. -/
def matchEnumLine (l : List Char) : Option (List Char) :=
  let ds := l.takeWhile Char.isDigit
  if ds = [] then none
  else
    let r := l.dropWhile Char.isDigit
    let k := (r.takeWhile isEnumMarkChar).length
    if k = 0 then none
    else if k < r.length then some (r.drop k)
    else if 2 ≤ k then some (r.drop (k - 1))
    else none

/-- The question extracted from one non-empty stripped line: the stripped
capture group when the enumeration-marker regex matches, the line itself
otherwise. -/
def questionOfLine (line : List Char) : String :=
  match matchEnumLine line with
  | some cap => String.mk (stripChars cap)
  | none => String.mk line

/-- Loop of `_parse_three_questions`: accumulate one question per non-empty
line, returning the first 3 as soon as 3 have been collected; after the loop,
fewer than 3 accumulated questions means failure. -/
def parseQuestionsGo : List (List Char) → List String → Option (List String)
  | [], acc => if 3 ≤ acc.length then some (acc.take 3) else none
  | l :: ls, acc =>
    if stripChars l = [] then parseQuestionsGo ls acc
    else
      if 3 ≤ (acc ++ [questionOfLine (stripChars l)]).length then
        some ((acc ++ [questionOfLine (stripChars l)]).take 3)
      else parseQuestionsGo ls (acc ++ [questionOfLine (stripChars l)])

/-- `_parse_three_questions(text)` (`threatfox_daily_report.py` lines 286-300). -/
def parse_three_questions (text : String) : Option (List String) :=
  parseQuestionsGo (splitLines (stripChars text.data)) []

/-- `TEMPLATE_QUESTIONS` (`threatfox_daily_report.py` lines 46-50). -/
def TEMPLATE_QUESTIONS : List String :=
  ["What are the most critical IOCs in this dataset and why?",
   "Which malware families appear most often and what should we prioritize for blocking?",
   "Summarize key recommendations for our SOC based on this ThreatFox pull."]

/-- `SUMMARY_QUESTION` (`threatfox_daily_report.py` line 51). -/
def SUMMARY_QUESTION : String :=
  "Summarize the key findings in no more than 3 bullet points."

/-- `_template_questions(mission)` (`threatfox_daily_report.py` lines 67-75). -/
def template_questions (mission : Option String) : List String :=
  match mission with
  | none => TEMPLATE_QUESTIONS
  | some mstr =>
    if pyStrip mstr = "" then TEMPLATE_QUESTIONS
    else
      let m := pyStrip mstr
      [s!"What are the most critical IOCs in this dataset relevant to {m} and why?",
       s!"Which indicators or malware families here relate to {m}, and what should we prioritize for blocking?",
       s!"Summarize key recommendations for our SOC regarding {m} based on this ThreatFox pull."]

/-- `generate_questions_via_anythingllm_chat_completions` (lines 303-333),
as a function of the observed network outcome: `none` stands for a
`requests.RequestException`, `some content` for a 2xx response whose extracted
`choices[0].message.content` is `content` (`""` when those keys are absent). -/
def generate_questions_via_anythingllm_chat_completions
    (netReply : Option String) : Option (List String) :=
  match netReply with
  | none => none
  | some content => if pyStrip content = "" then none else parse_three_questions content

/-- Question selection in `main` (`threatfox_daily_report.py` lines 453-463):
try the in-workspace chat-completions strategy when `USE_LLM_QUESTIONS` is
enabled, fall back to the template questions, then append the fixed summary
question. -/
def selectQuestions (useLlmQuestions : Bool) (netReply : Option String)
    (mission : Option String) : List String :=
  let q : Option (List String) :=
    if useLlmQuestions then generate_questions_via_anythingllm_chat_completions netReply
    else none
  let questions : List String :=
    match q with
    | some qs => if qs ≠ [] ∧ qs.length = 3 then qs else []
    | none => []
  let questions := if questions = [] then template_questions mission else questions
  questions.take 3 ++ [SUMMARY_QUESTION]

/-- Modelled from the spec: the three-strategy Question Strategy Selector of
spec §4.6, in which an external general-purpose completion strategy (building
a top-5 malware summary and asking a general completion endpoint) sits between
the in-workspace chat-completions strategy and the template strategy.  This
second strategy has no counterpart anywhere in `src/`; each strategy is
represented by its outcome, and the first success supplies the questions. -/
def selectQuestionsSpecThreeStrategies
    (strategy1 strategy2 : Option (List String)) (mission : Option String) : List String :=
  (match strategy1 with
   | some qs => qs
   | none =>
     match strategy2 with
     | some qs => qs
     | none => template_questions mission) ++ [SUMMARY_QUESTION]

/-- The number of non-empty lines (after per-line stripping) the parser sees
in `text`. -/
def nonEmptyLineCount (text : String) : Nat :=
  ((splitLines (stripChars text.data)).filter (fun l => !(stripChars l).isEmpty)).length

/-! ## Data model: feed rows and the feed envelope -/

/-- One ThreatFox feed row, restricted to the keys the report builder reads.
`none` models an absent key; `some ""` a present-but-empty value (both are
falsy in Python). -/
structure IndicatorRecord where
  ioc : Option String
  malware_printable : Option String
  malware : Option String
  threat_type : Option String
  threat_type_desc : Option String
  first_seen : Option String
  confidence_level : Option Int
deriving DecidableEq, Repr

/-- Python `a or b` on an optional string `a` with string fallback `b`:
the fallback is used when the value is absent or empty (falsy). -/
def pyOr (a : Option String) (b : String) : String :=
  match a with
  | none => b
  | some s => if s = "" then b else s

/-- The raw feed response as read by the scripts: `query_status`, `count`
and `data` may each be absent. -/
structure FeedResult where
  query_status : Option String
  count : Option Int
  data : Option (List IndicatorRecord)

/-- `result.get("data") or []`. -/
def pyOrEmptyList (a : Option (List IndicatorRecord)) : List IndicatorRecord :=
  match a with
  | none => []
  | some l => l

/-- The normalized envelope built in `main`
(`threatfox_daily_report.py` lines 391-393):
`{"query_status": status, "count": len(data), "data": data}`. -/
structure Envelope where
  query_status : String
  count : Nat
  data : List IndicatorRecord
deriving DecidableEq, Repr

/-- Normalization of the feed result performed in `main` before emit/upload. -/
def normalizeEnvelope (r : FeedResult) : Envelope :=
  let status := r.query_status.getD "unknown"
  let data := pyOrEmptyList r.data
  { query_status := status, count := data.length, data := data }

/-! ## Report builder (`build_markdown_report`, lines 202-253) -/

/-- `s.replace("|", "\\|")` on the character list. -/
def escapePipesAux : List Char → List Char
  | [] => []
  | c :: cs => if c = '|' then '\\' :: '|' :: escapePipesAux cs else c :: escapePipesAux cs

/-- `s.replace("|", "\\|")`. -/
def escapePipes (s : String) : String :=
  String.mk (escapePipesAux s.data)

/-- Malware label counted by the frequency table (line 226):
`row.get("malware_printable") or row.get("malware") or "Unknown"`. -/
def malwareLabel (r : IndicatorRecord) : String :=
  pyOr r.malware_printable (pyOr r.malware "Unknown")

/-- Threat-type label counted by the frequency table (line 228):
`row.get("threat_type") or row.get("threat_type_desc") or "Unknown"`. -/
def threatTypeLabel (r : IndicatorRecord) : String :=
  pyOr r.threat_type (pyOr r.threat_type_desc "Unknown")

/-- Sample-table IOC cell (line 245). -/
def sampleIocCell (r : IndicatorRecord) : String :=
  escapePipes (pyOr r.ioc "")

/-- Sample-table malware cell (line 246):
`(row.get("malware_printable") or row.get("malware") or "").replace("|", "\\|")`. -/
def sampleMalwareCell (r : IndicatorRecord) : String :=
  escapePipes (pyOr r.malware_printable (pyOr r.malware ""))

/-- Sample-table threat-type cell (line 247):
`(row.get("threat_type") or "").replace("|", "\\|")`. -/
def sampleThreatTypeCell (r : IndicatorRecord) : String :=
  escapePipes (pyOr r.threat_type "")

/-- Sample-table first-seen cell (line 248). -/
def sampleFirstSeenCell (r : IndicatorRecord) : String :=
  escapePipes (pyOr r.first_seen "")

/-- Sample-table confidence cell (line 249): `row.get("confidence_level", "")`
interpolated into the f-string (no pipe escaping, no "or" fallback). -/
def sampleConfidenceCell (r : IndicatorRecord) : String :=
  match r.confidence_level with
  | none => ""
  | some n => toString n

/-- One row of the sample-IOC table (line 250). -/
def sampleRow (r : IndicatorRecord) : String :=
  let ioc := sampleIocCell r
  let mal := sampleMalwareCell r
  let tt := sampleThreatTypeCell r
  let first := sampleFirstSeenCell r
  let conf := sampleConfidenceCell r
  s!"| {ioc} | {mal} | {tt} | {first} | {conf} |"

/-- `SAMPLE_IOC_ROWS` (line 78). -/
def SAMPLE_IOC_ROWS : Nat := 15

/-! `Counter.most_common(10)`: CPython counts labels in encounter order
(dict insertion order) and `most_common(n)` is a stable descending sort by
count truncated to `n`, so ties keep first-encounter order.  The stable
descending sort is embedded as an insertion sort that keeps an incoming
element before the existing elements of equal count. -/

/-- Stable descending insertion by count: `k` is placed before the first
element of strictly smaller count, after elements of greater-or-equal count
that were inserted earlier, and before equal-count elements that arrive
later in the fold below. -/
def insertByCountDesc (cnt : String → Nat) (k : String) : List String → List String
  | [] => [k]
  | x :: xs => if cnt x ≤ cnt k then k :: x :: xs else x :: insertByCountDesc cnt k xs

/-- Stable descending insertion sort by count. -/
def sortByCountDesc (cnt : String → Nat) : List String → List String
  | [] => []
  | x :: xs => insertByCountDesc cnt x (sortByCountDesc cnt xs)

/-- Distinct labels in first-encounter order (CPython dict key order of a
`Counter` filled by iterating the rows). -/
def dedupFirstAux (seen : List String) : List String → List String
  | [] => []
  | x :: xs => if x ∈ seen then dedupFirstAux seen xs else x :: dedupFirstAux (x :: seen) xs

/-- Distinct labels of `l` in first-encounter order. -/
def dedupFirst (l : List String) : List String :=
  dedupFirstAux [] l

/-- `Counter(labels).most_common(n)`. -/
def most_common (labels : List String) (n : Nat) : List (String × Nat) :=
  ((sortByCountDesc (fun x => labels.count x) (dedupFirst labels)).map
    (fun k => (k, labels.count k))).take n

/-- One bullet line of a frequency table (lines 233 and 238):
`f"- {name}: {n}"`. -/
def freqBullet (p : String × Nat) : String :=
  s!"- {p.1}: {p.2}"

/-- The frequency-table section of the report (lines 222-239), emitted only
when `data` is non-empty. -/
def freqSectionLines (data : List IndicatorRecord) : List String :=
  if data = [] then []
  else
    ["### Top malware families", ""]
    ++ (most_common (data.map malwareLabel) 10).map freqBullet
    ++ [""]
    ++ ["### Top threat types", ""]
    ++ (most_common (data.map threatTypeLabel) 10).map freqBullet
    ++ [""]

/-- The sample-IOC section of the report (lines 241-252). -/
def sampleSectionLines (data : List IndicatorRecord) : List String :=
  ["## Sample IOCs", "",
   "| IOC | Malware | Threat type | First seen | Confidence |",
   "|-----|---------|-------------|------------|------------|"]
  ++ (data.take SAMPLE_IOC_ROWS).map sampleRow
  ++ ["",
      "The full dataset is available in the attached JSON document in this workspace."]

/-- `f"last {days} day(s)" if days != 1 else "last 1 day"` (line 208). -/
def dateRangeText (days : Int) : String :=
  if days ≠ 1 then s!"last {days} day(s)" else "last 1 day"

/-- The title line and the blank line before the timestamp (lines 211-212). -/
def reportTitleLines (days : Int) : List String :=
  [s!"# ThreatFox IOCs – {dateRangeText days}", ""]

/-- The timestamp line (line 213): `f"**Generated:** {now} UTC"` with `now`
the `%Y-%m-%d %H:%M:%S`-formatted clock reading, truncated to the second. -/
def generatedLine (now : String) : String :=
  s!"**Generated:** {now} UTC"

/-- `result.get("count", 0) or len(result.get("data") or [])` (line 205). -/
def reportCount (r : FeedResult) : Int :=
  let c := r.count.getD 0
  if c = 0 then ((pyOrEmptyList r.data).length : Int) else c

/-- Every line of the report after the timestamp line (lines 214-252);
independent of the clock. -/
def reportTailLines (result : FeedResult) : List String :=
  let status := result.query_status.getD "unknown"
  let data := pyOrEmptyList result.data
  ["", "## Summary", "",
   s!"- **Query status:** {status}",
   s!"- **Total indicators:** {reportCount result}",
   ""]
  ++ freqSectionLines data
  ++ sampleSectionLines data

/-- The lines of `build_markdown_report(result, days)` evaluated under the
clock reading `now`. -/
def build_markdown_report_lines (result : FeedResult) (days : Int) (now : String) :
    List String :=
  reportTitleLines days ++ generatedLine now :: reportTailLines result

/-- `build_markdown_report(result, days)` under the clock reading `now`:
the lines joined with newlines. -/
def build_markdown_report (result : FeedResult) (days : Int) (now : String) : String :=
  String.intercalate "\n" (build_markdown_report_lines result days now)

/-! ## Orchestration after the feed/workspace steps (`main`, lines 412-477)

Each remote call is represented by the outcome the calling code observes:
`ok` carries the parsed response data, `transportError` stands for a raised
`requests.RequestException`. -/

/-- Observed outcome of one HTTP call. -/
inductive NetOutcome (α : Type) where
  | ok (val : α)
  | transportError
deriving DecidableEq, Repr

/-- `create_thread` (`threatfox_daily_report.py` lines 137-159) as a function
of the network outcome: on success it returns `data.get("thread", {}).get("slug")`
(an optional string), and on any `requests.RequestException` it returns `None`
instead of raising. -/
def create_thread (outcome : NetOutcome (Option String)) : Option String :=
  match outcome with
  | .ok threadSlugField => threadSlugField
  | .transportError => none

/-- Outcome of one conversation turn as logged by the loop in `main`
(lines 466-474): success records `len(reply)`, failure records the caught
transport error. -/
inductive TurnLog where
  | success (replyChars : Nat)
  | failure
deriving DecidableEq, Repr

/-- The log entry the loop writes for the turn with outcome `o`. -/
def turnLogOf (o : NetOutcome String) : TurnLog :=
  match o with
  | .ok reply => .success reply.length
  | .transportError => .failure

/-- The conversation loop (lines 466-474): one turn per question, each turn
wrapped in its own try/except, no break — every question is attempted no
matter how earlier turns ended. -/
def runConversationTurns (numQuestions : Nat) (turnOutcome : Nat → NetOutcome String) :
    List TurnLog :=
  (List.range numQuestions).map fun i => turnLogOf (turnOutcome i)

/-- Result of the orchestration steps modelled by `orchestrate`. -/
structure RunResult where
  threadSlug : String
  uploadsAttempted : Bool
  abortedAtUpload : Bool
  turnLogs : List TurnLog
  completed : Bool
deriving DecidableEq, Repr

/-- `main` from the thread-creation step onward (lines 412-477): resolve the
thread slug (remote slug when creation succeeded, otherwise the locally
generated one), upload the two artifacts (`sys.exit(1)` when either raises),
then run one conversation turn per question and print the final summary. -/
def orchestrate (localSlug : String) (threadOutcome : NetOutcome (Option String))
    (jsonUpload mdUpload : NetOutcome Unit) (questions : List String)
    (turnOutcome : Nat → NetOutcome String) : RunResult :=
  let createdSlug := create_thread threadOutcome
  let threadSlug :=
    match createdSlug with
    | some s => s
    | none => localSlug
  match jsonUpload, mdUpload with
  | .ok _, .ok _ =>
    { threadSlug := threadSlug, uploadsAttempted := true, abortedAtUpload := false,
      turnLogs := runConversationTurns questions.length turnOutcome, completed := true }
  | _, _ =>
    { threadSlug := threadSlug, uploadsAttempted := true, abortedAtUpload := true,
      turnLogs := [], completed := false }

/-! ## Ranking properties of `most_common` -/

/-- Index of the first occurrence of `x` in `l` (length of `l` when absent). -/
def firstIdx (l : List String) (x : String) : Nat :=
  match l with
  | [] => 0
  | y :: ys => if y = x then 0 else firstIdx ys x + 1

/-- The ranking relation of a frequency table over `cnt` with tie-break
position `pos`: never a smaller count before a larger one, and equal counts
ordered by `pos`. -/
def RankRel (cnt pos : String → Nat) (a b : String) : Prop :=
  cnt b ≤ cnt a ∧ (cnt a = cnt b → pos a < pos b)

/-- The claimed shape of one frequency table over the label list `labels`:
at most 10 entries, each entry carrying its label's occurrence count, ranked
most-common-first with ties broken by the label's first-encounter position. -/
def RankedTable (labels : List String) (table : List (String × Nat)) : Prop :=
  table.length ≤ 10 ∧
  (∀ p ∈ table, p.2 = labels.count p.1) ∧
  table.Pairwise (fun a b =>
    b.2 ≤ a.2 ∧ (a.2 = b.2 → firstIdx labels a.1 < firstIdx labels b.1))

/-- A feed row with every optional key absent. -/
def emptyRecord : IndicatorRecord :=
  ⟨none, none, none, none, none, none, none⟩

/-- A feed row whose only populated key is `threat_type_desc`. -/
def descOnlyRecord : IndicatorRecord :=
  ⟨none, none, none, none, some "botnet_cc", none, none⟩

/-! ## Lemmas -/

theorem mem_dedupFirstAux {y : String} :
    ∀ {l seen : List String}, y ∈ dedupFirstAux seen l → y ∈ l ∧ y ∉ seen := by
  intro l
  induction l with
  | nil => intro seen h; simp [dedupFirstAux] at h
  | cons x xs ih =>
    intro seen h
    by_cases hx : x ∈ seen
    · have h' : y ∈ dedupFirstAux seen xs := by simpa [dedupFirstAux, hx] using h
      obtain ⟨h1, h2⟩ := ih h'
      exact ⟨List.mem_cons_of_mem _ h1, h2⟩
    · have h' : y = x ∨ y ∈ dedupFirstAux (x :: seen) xs := by
        simpa [dedupFirstAux, hx] using h
      rcases h' with rfl | h'
      · exact ⟨List.mem_cons_self _ _, hx⟩
      · obtain ⟨h1, h2⟩ := ih h'
        refine ⟨List.mem_cons_of_mem _ h1, fun hy => h2 ?_⟩
        exact List.mem_cons_of_mem _ hy

theorem dedupFirstAux_pairwise :
    ∀ (l seen : List String),
      (dedupFirstAux seen l).Pairwise (fun a b => firstIdx l a < firstIdx l b) := by
  intro l
  induction l with
  | nil => intro seen; simp [dedupFirstAux]
  | cons x xs ih =>
    intro seen
    by_cases hx : x ∈ seen
    · rw [dedupFirstAux, if_pos hx]
      refine (ih seen).imp_of_mem ?_
      intro a b ha hb hr
      have hane : a ≠ x := fun h => (mem_dedupFirstAux ha).2 (h ▸ hx)
      have hbne : b ≠ x := fun h => (mem_dedupFirstAux hb).2 (h ▸ hx)
      have ha' : firstIdx (x :: xs) a = firstIdx xs a + 1 := by
        simp [firstIdx, Ne.symm hane]
      have hb' : firstIdx (x :: xs) b = firstIdx xs b + 1 := by
        simp [firstIdx, Ne.symm hbne]
      omega
    · rw [dedupFirstAux, if_neg hx]
      rw [List.pairwise_cons]
      constructor
      · intro b hb
        have hbmem := mem_dedupFirstAux hb
        have hbne : b ≠ x := fun h => hbmem.2 (h ▸ List.mem_cons_self _ _)
        have hx0 : firstIdx (x :: xs) x = 0 := by simp [firstIdx]
        have hb' : firstIdx (x :: xs) b = firstIdx xs b + 1 := by
          simp [firstIdx, Ne.symm hbne]
        omega
      · refine (ih (x :: seen)).imp_of_mem ?_
        intro a b ha hb hr
        have hane : a ≠ x := fun h =>
          (mem_dedupFirstAux ha).2 (h ▸ List.mem_cons_self _ _)
        have hbne : b ≠ x := fun h =>
          (mem_dedupFirstAux hb).2 (h ▸ List.mem_cons_self _ _)
        have ha' : firstIdx (x :: xs) a = firstIdx xs a + 1 := by
          simp [firstIdx, Ne.symm hane]
        have hb' : firstIdx (x :: xs) b = firstIdx xs b + 1 := by
          simp [firstIdx, Ne.symm hbne]
        omega

theorem mem_insertByCountDesc {cnt : String → Nat} {k y : String} :
    ∀ {l : List String}, y ∈ insertByCountDesc cnt k l → y = k ∨ y ∈ l := by
  intro l
  induction l with
  | nil => intro h; simpa [insertByCountDesc] using h
  | cons x xs ih =>
    intro h
    by_cases hc : cnt x ≤ cnt k
    · have h' : y = k ∨ y = x ∨ y ∈ xs := by simpa [insertByCountDesc, hc] using h
      rcases h' with h1 | h2
      · exact Or.inl h1
      · exact Or.inr (List.mem_cons.mpr h2)
    · have h' : y = x ∨ y ∈ insertByCountDesc cnt k xs := by
        simpa [insertByCountDesc, hc] using h
      rcases h' with rfl | h2
      · exact Or.inr (List.mem_cons_self _ _)
      · rcases ih h2 with h3 | h4
        · exact Or.inl h3
        · exact Or.inr (List.mem_cons_of_mem _ h4)

theorem insertByCountDesc_pairwise {cnt pos : String → Nat} {k : String} :
    ∀ {l : List String}, l.Pairwise (RankRel cnt pos) →
      (∀ b ∈ l, pos k < pos b) →
      (insertByCountDesc cnt k l).Pairwise (RankRel cnt pos) := by
  intro l
  induction l with
  | nil =>
    intro _ _
    simp [insertByCountDesc, RankRel]
  | cons x xs ih =>
    intro hp hf
    rw [List.pairwise_cons] at hp
    obtain ⟨hx, hxs⟩ := hp
    by_cases hc : cnt x ≤ cnt k
    · rw [insertByCountDesc, if_pos hc, List.pairwise_cons]
      constructor
      · intro b hb
        rcases List.mem_cons.mp hb with rfl | hbxs
        · exact ⟨hc, fun _ => hf b (List.mem_cons_self _ _)⟩
        · exact ⟨Nat.le_trans (hx b hbxs).1 hc, fun _ => hf b (List.mem_cons_of_mem _ hbxs)⟩
      · rw [List.pairwise_cons]
        exact ⟨hx, hxs⟩
    · rw [insertByCountDesc, if_neg hc, List.pairwise_cons]
      have hlt : cnt k < cnt x := Nat.lt_of_not_le hc
      constructor
      · intro b hb
        rcases mem_insertByCountDesc hb with rfl | hbxs
        · exact ⟨Nat.le_of_lt hlt, fun heq => absurd heq (by omega)⟩
        · exact hx b hbxs
      · exact ih hxs (fun b hb => hf b (List.mem_cons_of_mem _ hb))

theorem mem_sortByCountDesc {cnt : String → Nat} {y : String} :
    ∀ {l : List String}, y ∈ sortByCountDesc cnt l → y ∈ l := by
  intro l
  induction l with
  | nil => intro h; simp [sortByCountDesc] at h
  | cons x xs ih =>
    intro h
    rcases mem_insertByCountDesc (by simpa [sortByCountDesc] using h) with rfl | h2
    · exact List.mem_cons_self _ _
    · exact List.mem_cons_of_mem _ (ih h2)

theorem sortByCountDesc_pairwise {cnt pos : String → Nat} :
    ∀ {l : List String}, l.Pairwise (fun a b => pos a < pos b) →
      (sortByCountDesc cnt l).Pairwise (RankRel cnt pos) := by
  intro l
  induction l with
  | nil => intro _; simp [sortByCountDesc]
  | cons x xs ih =>
    intro hp
    rw [List.pairwise_cons] at hp
    obtain ⟨hx, hxs⟩ := hp
    rw [sortByCountDesc]
    exact insertByCountDesc_pairwise (ih hxs) (fun b hb => hx b (mem_sortByCountDesc hb))

theorem rankedTable_most_common (labels : List String) :
    RankedTable labels (most_common labels 10) := by
  refine ⟨?_, ?_, ?_⟩
  · rw [most_common, List.length_take]
    exact Nat.min_le_left _ _
  · intro p hp
    have hp' := (List.take_sublist _ _).subset hp
    obtain ⟨k, _, rfl⟩ := List.mem_map.mp hp'
    rfl
  · have hd := dedupFirstAux_pairwise labels []
    have hs :=
      @sortByCountDesc_pairwise (fun x => labels.count x)
        (fun x => firstIdx labels x) (dedupFirst labels) hd
    have hm : ((sortByCountDesc (fun x => labels.count x) (dedupFirst labels)).map
        (fun k => (k, labels.count k))).Pairwise (fun a b =>
          b.2 ≤ a.2 ∧ (a.2 = b.2 → firstIdx labels a.1 < firstIdx labels b.1)) := by
      rw [List.pairwise_map]
      exact hs.imp (fun hr => ⟨hr.1, hr.2⟩)
    exact hm.sublist (List.take_sublist _ _)

theorem parseQuestionsGo_eq_none :
    ∀ (ls : List (List Char)) (acc : List String),
      (ls.filter (fun l => !(stripChars l).isEmpty)).length + acc.length < 3 →
      parseQuestionsGo ls acc = none := by
  intro ls
  induction ls with
  | nil =>
    intro acc h
    simp only [List.filter_nil, List.length_nil, Nat.zero_add] at h
    simp only [parseQuestionsGo]
    rw [if_neg (by omega)]
  | cons l ls ih =>
    intro acc h
    by_cases hl : stripChars l = []
    · simp only [parseQuestionsGo]
      rw [if_pos hl]
      apply ih
      have hft : (List.filter (fun l => !(stripChars l).isEmpty) (l :: ls)).length =
          (List.filter (fun l => !(stripChars l).isEmpty) ls).length := by
        simp [List.filter_cons, hl]
      omega
    · have hft : (List.filter (fun l => !(stripChars l).isEmpty) (l :: ls)).length =
          (List.filter (fun l => !(stripChars l).isEmpty) ls).length + 1 := by
        simp [List.filter_cons, hl]
      simp only [parseQuestionsGo]
      rw [if_neg hl, if_neg (by simp; omega)]
      apply ih
      simp
      omega

theorem parseQuestionsGo_some_length :
    ∀ (ls : List (List Char)) (acc qs : List String),
      parseQuestionsGo ls acc = some qs → qs.length = 3 := by
  intro ls
  induction ls with
  | nil =>
    intro acc qs h
    simp only [parseQuestionsGo] at h
    by_cases hc : 3 ≤ acc.length
    · rw [if_pos hc] at h
      obtain rfl : acc.take 3 = qs := Option.some.inj h
      rw [List.length_take]
      omega
    · rw [if_neg hc] at h
      exact absurd h (by simp)
  | cons l ls ih =>
    intro acc qs h
    simp only [parseQuestionsGo] at h
    by_cases hl : stripChars l = []
    · rw [if_pos hl] at h
      exact ih acc qs h
    · rw [if_neg hl] at h
      by_cases hc : 3 ≤ (acc ++ [questionOfLine (stripChars l)]).length
      · rw [if_pos hc] at h
        obtain rfl : (acc ++ [questionOfLine (stripChars l)]).take 3 = qs := Option.some.inj h
        rw [List.length_take]
        omega
      · rw [if_neg hc] at h
        exact ih _ qs h

theorem parse_three_questions_some_length {text : String} {qs : List String}
    (h : parse_three_questions text = some qs) : qs.length = 3 :=
  parseQuestionsGo_some_length _ _ _ h

theorem generate_questions_some_length {netReply : Option String} {qs : List String}
    (h : generate_questions_via_anythingllm_chat_completions netReply = some qs) :
    qs.length = 3 := by
  cases netReply with
  | none => simp [generate_questions_via_anythingllm_chat_completions] at h
  | some content =>
    by_cases hc : pyStrip content = ""
    · simp [generate_questions_via_anythingllm_chat_completions, hc] at h
    · simp only [generate_questions_via_anythingllm_chat_completions, if_neg hc] at h
      exact parse_three_questions_some_length h

theorem template_questions_length (mission : Option String) :
    (template_questions mission).length = 3 := by
  cases mission with
  | none => rfl
  | some m =>
    by_cases h : pyStrip m = ""
    · simp [template_questions, h, TEMPLATE_QUESTIONS]
    · simp [template_questions, h]

theorem template_questions_take_three (mission : Option String) :
    (template_questions mission).take 3 = template_questions mission :=
  List.take_of_length_le (by rw [template_questions_length])

/-! ## Claims -/

/-- C1 (counterexample): the claim says the Question Strategy Selector tries
three strategies, with an external general-purpose completion strategy second.
The code has no such second strategy: when the in-workspace chat-completions
strategy fails (here: transport error), the code falls straight through to the
template questions, whereas the three-strategy selector of the spec would use
the external strategy's questions. -/
theorem strategy_selector_skips_external_strategy :
    selectQuestions true none none = TEMPLATE_QUESTIONS ++ [SUMMARY_QUESTION] ∧
    selectQuestionsSpecThreeStrategies none (some ["Qa", "Qb", "Qc"]) none =
      ["Qa", "Qb", "Qc"] ++ [SUMMARY_QUESTION] ∧
    selectQuestions true none none ≠
      selectQuestionsSpecThreeStrategies none (some ["Qa", "Qb", "Qc"]) none := by
  decide

/-- C1 (amended): the Question Strategy Selector tries two strategies in
priority order — the in-workspace chat-completions strategy (attempted only
when `USE_LLM_QUESTIONS` is enabled), then the template strategy — and the
first strategy to succeed supplies the 3 questions, followed by the fixed
summary question. -/
theorem strategy_selector_two_strategies (netReply : Option String)
    (mission : Option String) :
    (∀ qs, generate_questions_via_anythingllm_chat_completions netReply = some qs →
      selectQuestions true netReply mission = qs ++ [SUMMARY_QUESTION]) ∧
    (generate_questions_via_anythingllm_chat_completions netReply = none →
      selectQuestions true netReply mission =
        template_questions mission ++ [SUMMARY_QUESTION]) ∧
    selectQuestions false netReply mission =
      template_questions mission ++ [SUMMARY_QUESTION] := by
  refine ⟨?_, ?_, ?_⟩
  · intro qs hq
    have hlen : qs.length = 3 := generate_questions_some_length hq
    have hne : qs ≠ [] := by
      intro h0
      rw [h0] at hlen
      simp at hlen
    have htk : qs.take 3 = qs := List.take_of_length_le (by omega)
    simp [selectQuestions, hq, hne, hlen, htk]
  · intro hq
    simp [selectQuestions, hq, template_questions_take_three]
  · simp [selectQuestions, template_questions_take_three]

/-- C1 (witness): a successful chat-completions reply supplies the parsed
3 questions, followed by the summary question. -/
theorem strategy_selector_two_strategies_witness :
    selectQuestions true (some "1. Qa\n2. Qb\n3. Qc") none =
      ["Qa", "Qb", "Qc"] ++ [SUMMARY_QUESTION] := by
  have h := (strategy_selector_two_strategies (some "1. Qa\n2. Qb\n3. Qc") none).1
    ["Qa", "Qb", "Qc"] (by decide)
  exact h

/-- C2 (counterexample): a record with every field absent renders in the
sample-IOC table with empty malware and threat-type cells, not "Unknown". -/
theorem sample_row_missing_fields_not_unknown :
    sampleRow emptyRecord = "|  |  |  |  |  |" ∧
    sampleMalwareCell emptyRecord = "" ∧
    sampleThreatTypeCell emptyRecord = "" ∧
    sampleMalwareCell emptyRecord ≠ "Unknown" ∧
    sampleThreatTypeCell emptyRecord ≠ "Unknown" := by
  decide

/-- C2 (amended): in the sample-IOC table, a record's missing malware,
threat-type, first-seen and confidence fields all render as the empty string;
the "Unknown" default applies only in the frequency tables. -/
theorem sample_table_missing_fields_render_empty (r : IndicatorRecord)
    (h1 : r.malware_printable = none) (h2 : r.malware = none)
    (h3 : r.threat_type = none) (h4 : r.first_seen = none)
    (h5 : r.confidence_level = none) :
    sampleMalwareCell r = "" ∧ sampleThreatTypeCell r = "" ∧
    sampleFirstSeenCell r = "" ∧ sampleConfidenceCell r = "" := by
  refine ⟨?_, ?_, ?_, ?_⟩ <;>
    simp [sampleMalwareCell, sampleThreatTypeCell, sampleFirstSeenCell,
      sampleConfidenceCell, pyOr, escapePipes, escapePipesAux, h1, h2, h3, h4, h5]

/-- C2 (witness): the amended rendering rule at the all-absent record. -/
theorem sample_table_missing_fields_render_empty_witness :
    sampleMalwareCell emptyRecord = "" ∧ sampleThreatTypeCell emptyRecord = "" ∧
    sampleFirstSeenCell emptyRecord = "" ∧ sampleConfidenceCell emptyRecord = "" :=
  sample_table_missing_fields_render_empty emptyRecord rfl rfl rfl rfl rfl

/-- C3: on a transport failure, `create_thread` returns `None` instead of
raising, and the orchestrator proceeds with the locally generated slug,
continuing to document upload; when the uploads succeed, the run also runs
every conversation turn and completes — thread-creation failure alone never
aborts the run. -/
theorem thread_creation_failure_non_fatal (localSlug : String)
    (ju mu : NetOutcome Unit) (questions : List String)
    (turnOutcome : Nat → NetOutcome String)
    (hju : ju = .ok ()) (hmu : mu = .ok ()) :
    create_thread .transportError = none ∧
    (orchestrate localSlug .transportError ju mu questions turnOutcome).threadSlug =
      localSlug ∧
    (orchestrate localSlug .transportError ju mu questions turnOutcome).uploadsAttempted =
      true ∧
    (orchestrate localSlug .transportError ju mu questions turnOutcome).abortedAtUpload =
      false ∧
    (orchestrate localSlug .transportError ju mu questions turnOutcome).completed = true ∧
    (orchestrate localSlug .transportError ju mu questions turnOutcome).turnLogs.length =
      questions.length := by
  subst hju
  subst hmu
  refine ⟨rfl, rfl, rfl, rfl, rfl, ?_⟩
  simp [orchestrate, runConversationTurns]

/-- C3 (witness): concrete run with a failing thread-creation call. -/
theorem thread_creation_failure_non_fatal_witness :
    (orchestrate "2026-10-12-00-00-00-abcd1234" .transportError (.ok ()) (.ok ())
        ["q1", "q2", "q3", "q4"] (fun _ => .ok "reply")).threadSlug =
      "2026-10-12-00-00-00-abcd1234" ∧
    (orchestrate "2026-10-12-00-00-00-abcd1234" .transportError (.ok ()) (.ok ())
        ["q1", "q2", "q3", "q4"] (fun _ => .ok "reply")).completed = true := by
  have h := thread_creation_failure_non_fatal "2026-10-12-00-00-00-abcd1234"
    (.ok ()) (.ok ()) ["q1", "q2", "q3", "q4"] (fun _ => .ok "reply") rfl rfl
  exact ⟨h.2.1, h.2.2.2.2.1⟩

/-- C4: with the uploads succeeded, every conversation turn is attempted and
logged with its own outcome, whatever the outcomes of the other turns — a
single turn's transport error never terminates the question loop, and the run
still completes. -/
theorem turn_failure_does_not_stop_loop (localSlug : String)
    (threadOutcome : NetOutcome (Option String)) (questions : List String)
    (turnOutcome : Nat → NetOutcome String) (i : Nat) (hi : i < questions.length) :
    (orchestrate localSlug threadOutcome (.ok ()) (.ok ()) questions
        turnOutcome).turnLogs.length = questions.length ∧
    (orchestrate localSlug threadOutcome (.ok ()) (.ok ()) questions
        turnOutcome).turnLogs[i]? = some (turnLogOf (turnOutcome i)) ∧
    (orchestrate localSlug threadOutcome (.ok ()) (.ok ()) questions
        turnOutcome).completed = true := by
  refine ⟨?_, ?_, rfl⟩
  · simp [orchestrate, runConversationTurns]
  · simp [orchestrate, runConversationTurns, List.getElem?_map, List.getElem?_range, hi]

/-- C4 (witness): the second turn is attempted and succeeds although the
first turn raised a transport error. -/
theorem turn_failure_does_not_stop_loop_witness :
    (orchestrate "local" (.ok (some "thr")) (.ok ()) (.ok ()) ["q1", "q2"]
        (fun j => if j = 0 then .transportError else .ok "ok")).turnLogs[1]? =
      some (.success 2) := by
  have h := turn_failure_does_not_stop_loop "local" (.ok (some "thr")) ["q1", "q2"]
    (fun j => if j = 0 then .transportError else .ok "ok") 1 (by decide)
  rw [h.2.1]
  rfl

/-- C5: for a feed result with `query_status` "ok", the normalized envelope
built in `main` has its `count` field equal to the length of its `data`
sequence. -/
theorem normalized_count_eq_data_length (r : FeedResult)
    (h : r.query_status = some "ok") :
    (normalizeEnvelope r).count = (normalizeEnvelope r).data.length := rfl

/-- C5 (witness): concrete "ok" feed result whose raw `count` field (5)
disagrees with the data length (1); normalization forces agreement. -/
theorem normalized_count_eq_data_length_witness :
    (⟨some "ok", some 5, some [emptyRecord]⟩ : FeedResult).query_status = some "ok" ∧
    (normalizeEnvelope ⟨some "ok", some 5, some [emptyRecord]⟩).count =
      (normalizeEnvelope ⟨some "ok", some 5, some [emptyRecord]⟩).data.length :=
  ⟨rfl, normalized_count_eq_data_length _ rfl⟩

/-- C6: the question-line parser strips the three styles of leading
enumeration marker and returns exactly the three questions. -/
theorem parser_strips_enumeration_markers :
    parse_three_questions "1. Question A\n2) Question B\n3 - Question C\n" =
      some ["Question A", "Question B", "Question C"] := by
  decide

/-- C7: on any input with fewer than 3 non-empty lines the parser returns no
result, and in the selector this makes the chat-completions strategy fall
back to the template questions. -/
theorem parser_fails_below_three_lines (text : String)
    (h : nonEmptyLineCount text < 3) :
    parse_three_questions text = none ∧
    ∀ mission : Option String,
      selectQuestions true (some text) mission =
        template_questions mission ++ [SUMMARY_QUESTION] := by
  have hparse : parse_three_questions text = none := by
    apply parseQuestionsGo_eq_none
    simpa [nonEmptyLineCount] using h
  refine ⟨hparse, ?_⟩
  intro mission
  have hg : generate_questions_via_anythingllm_chat_completions (some text) = none := by
    by_cases hs : pyStrip text = "" <;>
      simp [generate_questions_via_anythingllm_chat_completions, hs, hparse]
  simp [selectQuestions, hg, template_questions_take_three]

/-- C7 (witness): a two-line reply fails the parser and the selector falls
back to the template questions. -/
theorem parser_fails_below_three_lines_witness :
    nonEmptyLineCount "1. Question A\n2) Question B" < 3 ∧
    parse_three_questions "1. Question A\n2) Question B" = none ∧
    selectQuestions true (some "1. Question A\n2) Question B") none =
      template_questions none ++ [SUMMARY_QUESTION] := by
  have h := parser_fails_below_three_lines "1. Question A\n2) Question B" (by decide)
  exact ⟨by decide, h.1, h.2 none⟩

/-- C8: each frequency table of the report (malware families, threat types)
has at most 10 entries, each entry carries its label's occurrence count, and
entries are ranked most-common-first with ties broken by the order in which
the label was first encountered in the record sequence. -/
theorem frequency_tables_ranked_top10 (data : List IndicatorRecord) :
    RankedTable (data.map malwareLabel) (most_common (data.map malwareLabel) 10) ∧
    RankedTable (data.map threatTypeLabel) (most_common (data.map threatTypeLabel) 10) :=
  ⟨rankedTable_most_common _, rankedTable_most_common _⟩

/-- C9: the markdown report is deterministic up to the embedded timestamp:
its line list decomposes as a clock-independent prefix, the single generated
timestamp line, and a clock-independent suffix, so equal clocks give
identical output and different clocks change only the timestamp line. -/
theorem report_deterministic_up_to_timestamp (result : FeedResult) (days : Int)
    (t1 t2 : String) :
    build_markdown_report result days t1 =
      String.intercalate "\n" (build_markdown_report_lines result days t1) ∧
    ∃ pre post : List String,
      build_markdown_report_lines result days t1 = pre ++ generatedLine t1 :: post ∧
      build_markdown_report_lines result days t2 = pre ++ generatedLine t2 :: post :=
  ⟨rfl, reportTitleLines days, reportTailLines result, rfl, rfl⟩

/-- C10: a record with an absent (or empty) `threat_type` but a non-empty
`threat_type_desc` is counted under the `threat_type_desc` value in the
threat-type frequency table, yet its threat-type cell in the sample-IOC table
is empty — the two sections disagree on the record's threat type. -/
theorem threat_type_sections_disagree (r : IndicatorRecord) (s : String)
    (ht : r.threat_type = none ∨ r.threat_type = some "")
    (hd : r.threat_type_desc = some s) (hs : s ≠ "") :
    threatTypeLabel r = s ∧
    sampleThreatTypeCell r = "" ∧
    threatTypeLabel r ≠ sampleThreatTypeCell r ∧
    ∀ rest : List IndicatorRecord,
      ((r :: rest).map threatTypeLabel).count s =
        (rest.map threatTypeLabel).count s + 1 := by
  have h1 : threatTypeLabel r = s := by
    rcases ht with h | h <;> simp [threatTypeLabel, pyOr, h, hd, hs]
  have h2 : sampleThreatTypeCell r = "" := by
    rcases ht with h | h <;>
      simp [sampleThreatTypeCell, pyOr, escapePipes, escapePipesAux, h]
  refine ⟨h1, h2, ?_, ?_⟩
  · rw [h1, h2]
    exact hs
  · intro rest
    simp [List.count_cons, h1]

/-- C10 (witness): the disagreement at a concrete record. -/
theorem threat_type_sections_disagree_witness :
    threatTypeLabel descOnlyRecord = "botnet_cc" ∧
    sampleThreatTypeCell descOnlyRecord = "" ∧
    ([descOnlyRecord].map threatTypeLabel).count "botnet_cc" =
      (([] : List IndicatorRecord).map threatTypeLabel).count "botnet_cc" + 1 := by
  have h := threat_type_sections_disagree descOnlyRecord "botnet_cc"
    (Or.inl rfl) rfl (by decide)
  exact ⟨h.1, h.2.1, h.2.2.2 []⟩

end ThreatFox
